import Mathlib

/-!
# telegram-types: shallow embedding of the JSON data model

This file embeds the serde-bound data model of the `telegram-types` Rust
crate (files `src/bot/types.rs`, `src/bot/methods.rs`, `src/bot/inline_mode.rs`)
in Lean, and proves the claimed properties of its wire encoding.

Modelling conventions:
* JSON values are the inductive `Json` below. JSON numbers are modelled as
  arbitrary-precision integers (`Int`); none of the verified properties
  involves a non-integral number, and the few `f32` fields of the source
  (`Location`, `MaskPosition`) are modelled at integer precision.
* Rust `i64`/`i32`/`u64` deserialization checks the machine range explicitly
  (`% 2^w` never occurs: serde rejects out-of-range numbers, it does not wrap).
* Fallible deserialization is `Json → Except String α`, mirroring
  `serde_json::from_value`. Error strings abbreviate serde's messages; only
  success/failure and successful values are load-bearing.
* Struct deserialization is field-lookup based (serde ignores unknown fields
  by default and visits fields by name); objects with duplicate keys, which
  serde rejects, are outside the scope of every property proved here.
-/

namespace TelegramTypes

/-- A JSON value (document order of object fields is kept, as serde sees it). -/
inductive Json where
  | null
  | bool (b : Bool)
  | num (n : Int)
  | str (s : String)
  | arr (elems : List Json)
  | obj (fields : List (String × Json))
deriving Repr, Inhabited

mutual

/-- Structural size of a JSON value (used only to provision recursion fuel). -/
def Json.size : Json → Nat
  | .null => 1
  | .bool _ => 1
  | .num _ => 1
  | .str _ => 1
  | .arr elems => 1 + Json.sizeList elems
  | .obj fields => 1 + Json.sizeFields fields

def Json.sizeList : List Json → Nat
  | [] => 0
  | j :: rest => Json.size j + Json.sizeList rest

def Json.sizeFields : List (String × Json) → Nat
  | [] => 0
  | (_, v) :: rest => Json.size v + Json.sizeFields rest

end

mutual

/-- `true` when the value contains no JSON sequence anywhere. On such values
the embedding's map-form struct decoders coincide with serde: derived
`Deserialize` for a plain struct additionally accepts a positional JSON
sequence (`serde_json`'s `deserialize_struct` visits arrays too), a wire
form the embedding models only for the empty placeholder structs below. -/
def Json.seqFree : Json → Bool
  | .null => true
  | .bool _ => true
  | .num _ => true
  | .str _ => true
  | .arr _ => false
  | .obj fields => Json.seqFreeFields fields

def Json.seqFreeFields : List (String × Json) → Bool
  | [] => true
  | (_, v) :: rest => Json.seqFree v && Json.seqFreeFields rest

end

/-- First field of the given name, in document order (serde's view of a
struct field: later duplicates would be a serde error, out of scope here). -/
def findField (fields : List (String × Json)) (name : String) : Option Json :=
  match fields with
  | [] => none
  | (k, v) :: rest => if k = name then some v else findField rest name

/-- The value fits Rust's `i64`. -/
def i64Range (n : Int) : Prop := -(2 ^ 63) ≤ n ∧ n < 2 ^ 63

instance (n : Int) : Decidable (i64Range n) := by
  unfold i64Range; infer_instance

/-- The value fits Rust's `i32`. -/
def i32Range (n : Int) : Prop := -(2 ^ 31) ≤ n ∧ n < 2 ^ 31

instance (n : Int) : Decidable (i32Range n) := by
  unfold i32Range; infer_instance

/-- The value fits Rust's `u64`. -/
def u64Range (n : Int) : Prop := 0 ≤ n ∧ n < 2 ^ 64

instance (n : Int) : Decidable (u64Range n) := by
  unfold u64Range; infer_instance

/-- serde deserialization of an `i64` from a JSON value. -/
def decodeI64 : Json → Except String Int
  | .num n => if i64Range n then .ok n else .error "invalid value: out of range integral type conversion attempted"
  | _ => .error "invalid type: expected i64"

/-- serde deserialization of an `i32` from a JSON value. -/
def decodeI32 : Json → Except String Int
  | .num n => if i32Range n then .ok n else .error "invalid value: out of range integral type conversion attempted"
  | _ => .error "invalid type: expected i32"

/-- serde deserialization of a `u64` from a JSON value. -/
def decodeU64 : Json → Except String Int
  | .num n => if u64Range n then .ok n else .error "invalid value: out of range integral type conversion attempted"
  | _ => .error "invalid type: expected u64"

/-- serde deserialization of a `bool` from a JSON value. -/
def decodeBool : Json → Except String Bool
  | .bool b => .ok b
  | _ => .error "invalid type: expected a boolean"

/-- serde deserialization of a `String` from a JSON value. -/
def decodeString : Json → Except String String
  | .str s => .ok s
  | _ => .error "invalid type: expected a string"

/-- A required struct field: missing is a hard serde error. -/
def reqField (fields : List (String × Json)) (name : String)
    (dec : Json → Except String α) : Except String α :=
  match findField fields name with
  | none => .error ("missing field `" ++ name ++ "`")
  | some v => dec v

/-- An `Option<T>` struct field: absent or `null` is `None`. -/
def optField (fields : List (String × Json)) (name : String)
    (dec : Json → Except String α) : Except String (Option α) :=
  match findField fields name with
  | none => .ok none
  | some .null => .ok none
  | some v => (dec v).map some

/-- serde deserialization of a `Vec<T>` from a JSON value. -/
def decodeList (dec : Json → Except String α) : Json → Except String (List α)
  | .arr elems => elems.mapM dec
  | _ => .error "invalid type: expected a sequence"

/-- A `#[serde(default)] Vec<T>` struct field: absent is the empty vector. -/
def vecDefaultField (fields : List (String × Json)) (name : String)
    (dec : Json → Except String α) : Except String (List α) :=
  match findField fields name with
  | none => .ok []
  | some v => decodeList dec v

/-- Modelled from the spec: `super::utils::falsum` lives in `src/bot/utils.rs`,
which is not under `src/`. It is the `#[serde(default = "falsum")]` provider
for boolean fields documented "Defaults to false"; per its name and use it
returns `false`. -/
def falsum : Bool := false

/-- A `#[serde(default = "falsum")] bool` struct field. -/
def boolFalsumField (fields : List (String × Json)) (name : String) :
    Except String Bool :=
  match findField fields name with
  | none => .ok falsum
  | some v => decodeBool v

/-! ## Identifier newtypes (`impl_id!` macro, `src/bot/types.rs` lines 8–57)

Each identifier is a newtype over `i64` with `Add`/`Sub` by a raw offset.
The source's operators are raw `i64` `+`/`-`, which wrap to the i64 range
in release builds (debug builds panic on overflow); the embedding models
the release-mode two's-complement wrap-around.
serde (de)serializes the bare scalar (derived newtype-struct behaviour). -/

/-- Two's-complement wrap-around into the `i64` range: the release-mode
semantics of Rust's raw `i64` `+`/`-` (a debug build panics instead of
wrapping). -/
def wrapI64 (n : Int) : Int := (n + 2 ^ 63) % 2 ^ 64 - 2 ^ 63

/-- `UserId(pub i64)`. -/
structure UserId where
  val : Int
deriving Repr, DecidableEq

instance : HAdd UserId Int UserId := ⟨fun i k => ⟨wrapI64 (i.val + k)⟩⟩
instance : HSub UserId Int UserId := ⟨fun i k => ⟨wrapI64 (i.val - k)⟩⟩

def UserId.deserialize (j : Json) : Except String UserId :=
  (decodeI64 j).map UserId.mk

def UserId.serialize (i : UserId) : Json := .num i.val

/-- `ChatId(pub i64)`. -/
structure ChatId where
  val : Int
deriving Repr, DecidableEq

instance : HAdd ChatId Int ChatId := ⟨fun i k => ⟨wrapI64 (i.val + k)⟩⟩
instance : HSub ChatId Int ChatId := ⟨fun i k => ⟨wrapI64 (i.val - k)⟩⟩

def ChatId.deserialize (j : Json) : Except String ChatId :=
  (decodeI64 j).map ChatId.mk

def ChatId.serialize (i : ChatId) : Json := .num i.val

/-- `MessageId(pub i64)`. -/
structure MessageId where
  val : Int
deriving Repr, DecidableEq

instance : HAdd MessageId Int MessageId := ⟨fun i k => ⟨wrapI64 (i.val + k)⟩⟩
instance : HSub MessageId Int MessageId := ⟨fun i k => ⟨wrapI64 (i.val - k)⟩⟩

def MessageId.deserialize (j : Json) : Except String MessageId :=
  (decodeI64 j).map MessageId.mk

def MessageId.serialize (i : MessageId) : Json := .num i.val

/-- `UpdateId(pub i64)`. -/
structure UpdateId where
  val : Int
deriving Repr, DecidableEq

instance : HAdd UpdateId Int UpdateId := ⟨fun i k => ⟨wrapI64 (i.val + k)⟩⟩
instance : HSub UpdateId Int UpdateId := ⟨fun i k => ⟨wrapI64 (i.val - k)⟩⟩

def UpdateId.deserialize (j : Json) : Except String UpdateId :=
  (decodeI64 j).map UpdateId.mk

def UpdateId.serialize (i : UpdateId) : Json := .num i.val

/-- `FileId(pub String)` (`src/bot/types.rs` line 66). -/
structure FileId where
  val : String
deriving Repr, DecidableEq

def FileId.deserialize (j : Json) : Except String FileId :=
  (decodeString j).map FileId.mk

def FileId.serialize (f : FileId) : Json := .str f.val

/-- `Time(pub u64)`: the UNIX timestamp (the `not(feature = "high")`
configuration of `src/bot/types.rs` lines 74–77). -/
structure Time where
  val : Int
deriving Repr, DecidableEq

def Time.deserialize (j : Json) : Except String Time :=
  (decodeU64 j).map Time.mk

/-! ## File references (`InputFile`, `FileToSend`, `src/bot/types.rs` 880–902) -/

/-- `InputFile(pub String)`: the contents of a file to be uploaded. -/
structure InputFile where
  val : String
deriving Repr, DecidableEq

/-- `InputFile::new`: using `multipart/form-data` under `<file_attach_name>`
name; builds the `attach://<name>` cross-reference URI. -/
def InputFile.new (file_attach_name : String) : InputFile :=
  ⟨"attach://" ++ file_attach_name⟩

def InputFile.deserialize (j : Json) : Except String InputFile :=
  (decodeString j).map InputFile.mk

def InputFile.serialize (f : InputFile) : Json := .str f.val

/-- `FileToSend`: `#[serde(untagged)]` union of the three ways to send a file. -/
inductive FileToSend where
  | FileId (f : TelegramTypes.FileId)
  | Url (u : String)
  | InputFile (f : TelegramTypes.InputFile)
deriving Repr, DecidableEq

/-- Untagged serialization: exactly the inner value's wire form, no tag. -/
def FileToSend.serialize : FileToSend → Json
  | .FileId f => f.serialize
  | .Url u => .str u
  | .InputFile f => f.serialize

/-- Untagged deserialization: serde tries the variants in declaration order
(`FileId`, `Url`, `InputFile`) and takes the first structural match. -/
def FileToSend.deserialize (j : Json) : Except String FileToSend :=
  match FileId.deserialize j with
  | .ok f => .ok (.FileId f)
  | .error _ =>
    match decodeString j with
    | .ok u => .ok (.Url u)
    | .error _ =>
      match InputFile.deserialize j with
      | .ok f => .ok (.InputFile f)
      | .error _ =>
        .error "data did not match any variant of untagged enum FileToSend"

/-! ## `ChatTarget` (`src/bot/methods.rs` 17–32) -/

/-- `ChatTarget<'a>`: `#[serde(untagged)]` chat integer identifier or username. -/
inductive ChatTarget where
  | Id (c : ChatId)
  | Username (u : String)
deriving Repr, DecidableEq

/-- `ChatTarget::id(value)`. -/
def ChatTarget.id (value : Int) : ChatTarget := .Id ⟨value⟩

/-- `ChatTarget::username(name)`. -/
def ChatTarget.username (name : String) : ChatTarget := .Username name

/-- Untagged serialization: a single bare JSON scalar, no tag. -/
def ChatTarget.serialize : ChatTarget → Json
  | .Id c => c.serialize
  | .Username u => .str u

/-- Untagged deserialization: serde tries `Id` (an `i64` newtype, so a JSON
number) first, then `Username` (a JSON string). -/
def ChatTarget.deserialize (j : Json) : Except String ChatTarget :=
  match ChatId.deserialize j with
  | .ok c => .ok (.Id c)
  | .error _ =>
    match decodeString j with
    | .ok u => .ok (.Username u)
    | .error _ =>
      .error "data did not match any variant of untagged enum ChatTarget"

/-! ## Result envelope (`src/bot/methods.rs` 59–64 and 845–888) -/

/-- `ResponseParameters` (`src/bot/types.rs` 793–800). -/
structure ResponseParameters where
  migrate_to_chat_id : Option ChatId
  retry_after : Option Int
deriving Repr, DecidableEq

def ResponseParameters.deserialize (j : Json) : Except String ResponseParameters :=
  match j with
  | .obj fields => do
    let migrate_to_chat_id ← optField fields "migrate_to_chat_id" ChatId.deserialize
    let retry_after ← optField fields "retry_after" decodeI32
    .ok ⟨migrate_to_chat_id, retry_after⟩
  | _ => .error "invalid type: expected struct ResponseParameters"

/-- `ApiError` (`src/bot/methods.rs` 59–64). -/
structure ApiError where
  error_code : Int
  description : String
  parameters : Option ResponseParameters
deriving Repr, DecidableEq

/-- `TelegramResult<T>` (`src/bot/methods.rs` 845–852): the response envelope
`{ok, description, error_code, result, parameters}`. -/
structure TelegramResult (T : Type) where
  ok : Bool
  description : Option String
  error_code : Option Int
  result : Option T
  parameters : Option ResponseParameters
deriving Repr, DecidableEq

/-- The derived `Deserialize` for `TelegramResult<T>`: `ok` is required,
every other field is an `Option`. -/
def TelegramResult.deserialize (decT : Json → Except String T) (j : Json) :
    Except String (TelegramResult T) :=
  match j with
  | .obj fields => do
    let ok ← reqField fields "ok" decodeBool
    let description ← optField fields "description" decodeString
    let error_code ← optField fields "error_code" decodeI32
    let result ← optField fields "result" decT
    let parameters ← optField fields "parameters" ResponseParameters.deserialize
    .ok ⟨ok, description, error_code, result, parameters⟩
  | _ => .error "invalid type: expected struct TelegramResult"

/-- `TelegramResult::into_result` (`src/bot/methods.rs` 854–882): convert the
envelope into a success/error outcome (Rust `Result<T, ApiError>`). -/
def TelegramResult.into_result (self : TelegramResult T) : Except ApiError T :=
  if self.ok then
    let api_error : ApiError :=
      { error_code := 0
        description :=
          "In the response from telegram `ok: true`, but not found `result` field."
        parameters := none }
    match self.result with
    | some r => .ok r
    | none => .error api_error
  else
    let description :=
      if self.error_code.isNone then
        "In the response from telegram `ok: false`, but not found `err_code` field."
      else
        self.description.getD ""
    .error
      { error_code := self.error_code.getD 0
        description := description
        parameters := self.parameters }

/-! ## Leaf object types of the `Message` graph (`src/bot/types.rs`) -/

/-- serde deserialization of an `f32` from a JSON value, at the integer
precision of this embedding (no verified property involves a non-integral
number). -/
def decodeF32 : Json → Except String Int
  | .num n => .ok n
  | _ => .error "invalid type: expected f32"

/-- `User`: a Telegram user or bot (`src/bot/types.rs` 196–210). -/
structure User where
  id : UserId
  is_bot : Bool
  first_name : String
  last_name : Option String
  username : Option String
  language_code : Option String
deriving Repr, DecidableEq

def User.deserialize (j : Json) : Except String User :=
  match j with
  | .obj fields => do
    let id ← reqField fields "id" UserId.deserialize
    let is_bot ← reqField fields "is_bot" decodeBool
    let first_name ← reqField fields "first_name" decodeString
    let last_name ← optField fields "last_name" decodeString
    let username ← optField fields "username" decodeString
    let language_code ← optField fields "language_code" decodeString
    .ok ⟨id, is_bot, first_name, last_name, username, language_code⟩
  | _ => .error "invalid type: expected struct User"

/-- `PhotoSize` (`src/bot/types.rs` 586–593). -/
structure PhotoSize where
  file_id : FileId
  width : Int
  height : Int
  file_size : Option Int
deriving Repr, DecidableEq

def PhotoSize.deserialize (j : Json) : Except String PhotoSize :=
  match j with
  | .obj fields => do
    let file_id ← reqField fields "file_id" FileId.deserialize
    let width ← reqField fields "width" decodeI32
    let height ← reqField fields "height" decodeI32
    let file_size ← optField fields "file_size" decodeI32
    .ok ⟨file_id, width, height, file_size⟩
  | _ => .error "invalid type: expected struct PhotoSize"

/-- `Document` (`src/bot/types.rs` 444–455). -/
structure Document where
  file_id : FileId
  thumb : Option PhotoSize
  file_name : Option String
  mime_type : Option String
  file_size : Option Int
deriving Repr, DecidableEq

def Document.deserialize (j : Json) : Except String Document :=
  match j with
  | .obj fields => do
    let file_id ← reqField fields "file_id" FileId.deserialize
    let thumb ← optField fields "thumb" PhotoSize.deserialize
    let file_name ← optField fields "file_name" decodeString
    let mime_type ← optField fields "mime_type" decodeString
    let file_size ← optField fields "file_size" decodeI32
    .ok ⟨file_id, thumb, file_name, mime_type, file_size⟩
  | _ => .error "invalid type: expected struct Document"

/-- `Video` (`src/bot/types.rs` 458–472). -/
structure Video where
  file_id : FileId
  width : Int
  height : Int
  duration : Int
  thumb : Option PhotoSize
  mime_type : Option String
  file_size : Option Int
deriving Repr, DecidableEq

def Video.deserialize (j : Json) : Except String Video :=
  match j with
  | .obj fields => do
    let file_id ← reqField fields "file_id" FileId.deserialize
    let width ← reqField fields "width" decodeI32
    let height ← reqField fields "height" decodeI32
    let duration ← reqField fields "duration" decodeI32
    let thumb ← optField fields "thumb" PhotoSize.deserialize
    let mime_type ← optField fields "mime_type" decodeString
    let file_size ← optField fields "file_size" decodeI32
    .ok ⟨file_id, width, height, duration, thumb, mime_type, file_size⟩
  | _ => .error "invalid type: expected struct Video"

/-- `Animation` (`src/bot/types.rs` 475–491). -/
structure Animation where
  file_id : FileId
  width : Int
  height : Int
  duration : Int
  thumb : Option PhotoSize
  file_name : Option String
  mime_type : Option String
  file_size : Option Int
deriving Repr, DecidableEq

def Animation.deserialize (j : Json) : Except String Animation :=
  match j with
  | .obj fields => do
    let file_id ← reqField fields "file_id" FileId.deserialize
    let width ← reqField fields "width" decodeI32
    let height ← reqField fields "height" decodeI32
    let duration ← reqField fields "duration" decodeI32
    let thumb ← optField fields "thumb" PhotoSize.deserialize
    let file_name ← optField fields "file_name" decodeString
    let mime_type ← optField fields "mime_type" decodeString
    let file_size ← optField fields "file_size" decodeI32
    .ok ⟨file_id, width, height, duration, thumb, file_name, mime_type, file_size⟩
  | _ => .error "invalid type: expected struct Animation"

/-- `Audio` (`src/bot/types.rs` 494–509). -/
structure Audio where
  file_id : FileId
  duration : Int
  performer : Option String
  title : Option String
  mime_type : Option String
  file_size : Option Int
  thumb : Option PhotoSize
deriving Repr, DecidableEq

def Audio.deserialize (j : Json) : Except String Audio :=
  match j with
  | .obj fields => do
    let file_id ← reqField fields "file_id" FileId.deserialize
    let duration ← reqField fields "duration" decodeI32
    let performer ← optField fields "performer" decodeString
    let title ← optField fields "title" decodeString
    let mime_type ← optField fields "mime_type" decodeString
    let file_size ← optField fields "file_size" decodeI32
    let thumb ← optField fields "thumb" PhotoSize.deserialize
    .ok ⟨file_id, duration, performer, title, mime_type, file_size, thumb⟩
  | _ => .error "invalid type: expected struct Audio"

/-- `Voice` (`src/bot/types.rs` 512–521). -/
structure Voice where
  file_id : FileId
  duration : Int
  mime_type : Option String
  file_size : Option Int
deriving Repr, DecidableEq

def Voice.deserialize (j : Json) : Except String Voice :=
  match j with
  | .obj fields => do
    let file_id ← reqField fields "file_id" FileId.deserialize
    let duration ← reqField fields "duration" decodeI32
    let mime_type ← optField fields "mime_type" decodeString
    let file_size ← optField fields "file_size" decodeI32
    .ok ⟨file_id, duration, mime_type, file_size⟩
  | _ => .error "invalid type: expected struct Voice"

/-- `VideoNote` (`src/bot/types.rs` 524–534). -/
structure VideoNote where
  file_id : FileId
  length : Int
  duration : Int
  thumb : Option PhotoSize
  file_size : Option Int
deriving Repr, DecidableEq

def VideoNote.deserialize (j : Json) : Except String VideoNote :=
  match j with
  | .obj fields => do
    let file_id ← reqField fields "file_id" FileId.deserialize
    let length ← reqField fields "length" decodeI32
    let duration ← reqField fields "duration" decodeI32
    let thumb ← optField fields "thumb" PhotoSize.deserialize
    let file_size ← optField fields "file_size" decodeI32
    .ok ⟨file_id, length, duration, thumb, file_size⟩
  | _ => .error "invalid type: expected struct VideoNote"

/-- `Contact` (`src/bot/types.rs` 537–545). -/
structure Contact where
  phone_number : String
  first_name : String
  last_name : Option String
  user_id : Option UserId
  vcard : Option String
deriving Repr, DecidableEq

def Contact.deserialize (j : Json) : Except String Contact :=
  match j with
  | .obj fields => do
    let phone_number ← reqField fields "phone_number" decodeString
    let first_name ← reqField fields "first_name" decodeString
    let last_name ← optField fields "last_name" decodeString
    let user_id ← optField fields "user_id" UserId.deserialize
    let vcard ← optField fields "vcard" decodeString
    .ok ⟨phone_number, first_name, last_name, user_id, vcard⟩
  | _ => .error "invalid type: expected struct Contact"

/-- `Location` (`src/bot/types.rs` 562–568); `f32` coordinates at this
embedding's integer precision. -/
structure Location where
  longitude : Int
  latitude : Int
deriving Repr, DecidableEq

def Location.deserialize (j : Json) : Except String Location :=
  match j with
  | .obj fields => do
    let longitude ← reqField fields "longitude" decodeF32
    let latitude ← reqField fields "latitude" decodeF32
    .ok ⟨longitude, latitude⟩
  | _ => .error "invalid type: expected struct Location"

/-- `Venue` (`src/bot/types.rs` 570–583). -/
structure Venue where
  location : Location
  title : String
  address : String
  foursquare_id : Option String
  foursquare_type : Option String
deriving Repr, DecidableEq

def Venue.deserialize (j : Json) : Except String Venue :=
  match j with
  | .obj fields => do
    let location ← reqField fields "location" Location.deserialize
    let title ← reqField fields "title" decodeString
    let address ← reqField fields "address" decodeString
    let foursquare_id ← optField fields "foursquare_id" decodeString
    let foursquare_type ← optField fields "foursquare_type" decodeString
    .ok ⟨location, title, address, foursquare_id, foursquare_type⟩
  | _ => .error "invalid type: expected struct Venue"

/-- `ChatPhoto` (`src/bot/types.rs` 802–810). -/
structure ChatPhoto where
  small_file_id : FileId
  big_file_id : FileId
deriving Repr, DecidableEq

def ChatPhoto.deserialize (j : Json) : Except String ChatPhoto :=
  match j with
  | .obj fields => do
    let small_file_id ← reqField fields "small_file_id" FileId.deserialize
    let big_file_id ← reqField fields "big_file_id" FileId.deserialize
    .ok ⟨small_file_id, big_file_id⟩
  | _ => .error "invalid type: expected struct ChatPhoto"

/-- `MaskPosition` (`src/bot/types.rs` 936–948); `f32` shifts/scale at this
embedding's integer precision. -/
structure MaskPosition where
  point : String
  x_shift : Int
  y_shift : Int
  scale : Int
deriving Repr, DecidableEq

def MaskPosition.deserialize (j : Json) : Except String MaskPosition :=
  match j with
  | .obj fields => do
    let point ← reqField fields "point" decodeString
    let x_shift ← reqField fields "x_shift" decodeF32
    let y_shift ← reqField fields "y_shift" decodeF32
    let scale ← reqField fields "scale" decodeF32
    .ok ⟨point, x_shift, y_shift, scale⟩
  | _ => .error "invalid type: expected struct MaskPosition"

/-- `Sticker` (`src/bot/types.rs` 904–918). -/
structure Sticker where
  file_id : FileId
  width : Int
  height : Int
  thumb : Option PhotoSize
  emoji : Option String
  set_name : Option String
  mask_position : Option MaskPosition
  file_size : Int
deriving Repr, DecidableEq

def Sticker.deserialize (j : Json) : Except String Sticker :=
  match j with
  | .obj fields => do
    let file_id ← reqField fields "file_id" FileId.deserialize
    let width ← reqField fields "width" decodeI32
    let height ← reqField fields "height" decodeI32
    let thumb ← optField fields "thumb" PhotoSize.deserialize
    let emoji ← optField fields "emoji" decodeString
    let set_name ← optField fields "set_name" decodeString
    let mask_position ← optField fields "mask_position" MaskPosition.deserialize
    let file_size ← reqField fields "file_size" decodeI32
    .ok ⟨file_id, width, height, thumb, emoji, set_name, mask_position, file_size⟩
  | _ => .error "invalid type: expected struct Sticker"

/-! ## `MessageEntity` and its kind (`src/bot/types.rs` 398–440) -/

/-- `MessageEntityKind`: `#[serde(rename_all = "snake_case")]` unit enum with
a `#[serde(other)] Unknown` fallback arm. -/
inductive MessageEntityKind where
  | Mention
  | Hashtag
  | Cashtag
  | BotCommand
  | Url
  | Email
  | PhoneNumber
  | Bold
  | Italic
  | Code
  | Pre
  | TextLink
  | TextMention
  | Unknown
deriving Repr, DecidableEq

/-- The snake_case discriminator strings of the named (non-`other`) variants. -/
def MessageEntityKind.knownNames : List String :=
  ["mention", "hashtag", "cashtag", "bot_command", "url", "email",
   "phone_number", "bold", "italic", "code", "pre", "text_link", "text_mention"]

/-- Unit-enum deserialization: a JSON string matched against the variant
names; `#[serde(other)]` sends every unrecognized string to `Unknown`. -/
def MessageEntityKind.deserialize (j : Json) : Except String MessageEntityKind :=
  match j with
  | .str s =>
    if s = "mention" then .ok .Mention
    else if s = "hashtag" then .ok .Hashtag
    else if s = "cashtag" then .ok .Cashtag
    else if s = "bot_command" then .ok .BotCommand
    else if s = "url" then .ok .Url
    else if s = "email" then .ok .Email
    else if s = "phone_number" then .ok .PhoneNumber
    else if s = "bold" then .ok .Bold
    else if s = "italic" then .ok .Italic
    else if s = "code" then .ok .Code
    else if s = "pre" then .ok .Pre
    else if s = "text_link" then .ok .TextLink
    else if s = "text_mention" then .ok .TextMention
    else .ok .Unknown
  | _ => .error "invalid type: expected variant identifier"

/-- `MessageEntity` (`src/bot/types.rs` 398–411); the Rust field `kind` is
renamed `"type"` on the wire. -/
structure MessageEntity where
  kind : MessageEntityKind
  offset : Int
  length : Int
  url : Option String
  user : Option User
deriving Repr, DecidableEq

def MessageEntity.deserialize (j : Json) : Except String MessageEntity :=
  match j with
  | .obj fields => do
    let kind ← reqField fields "type" MessageEntityKind.deserialize
    let offset ← reqField fields "offset" decodeI32
    let length ← reqField fields "length" decodeI32
    let url ← optField fields "url" decodeString
    let user ← optField fields "user" User.deserialize
    .ok ⟨kind, offset, length, url, user⟩
  | _ => .error "invalid type: expected struct MessageEntity"

/-! ## Inline keyboards (`src/bot/types.rs` 684–742 and 1070–1090) -/

/-- Modelled from the spec: `super::games::CallbackGame` lives in
`src/bot/games.rs`, which is not under `src/`. The spec treats game objects
as out-of-scope placeholder data; it is modelled as a placeholder object
holding no information (any JSON object decodes, all fields ignored). -/
structure CallbackGame where
deriving Repr, DecidableEq

def CallbackGame.deserialize (j : Json) : Except String CallbackGame :=
  match j with
  | .obj _ => .ok ⟨⟩
  | _ => .error "invalid type: expected struct CallbackGame"

/-- `LoginUrl` (`src/bot/types.rs` 1070–1090 region). -/
structure LoginUrl where
  url : String
  forward_text : Option String
  bot_username : Option String
  request_write_access : Option Bool
deriving Repr, DecidableEq

def LoginUrl.deserialize (j : Json) : Except String LoginUrl :=
  match j with
  | .obj fields => do
    let url ← reqField fields "url" decodeString
    let forward_text ← optField fields "forward_text" decodeString
    let bot_username ← optField fields "bot_username" decodeString
    let request_write_access ← optField fields "request_write_access" decodeBool
    .ok ⟨url, forward_text, bot_username, request_write_access⟩
  | _ => .error "invalid type: expected struct LoginUrl"

/-- `InlineKeyboardButtonPressed` (`src/bot/types.rs` 700–742):
`#[serde(rename_all = "snake_case")]` externally tagged enum with a
`#[serde(other)] Unknown` arm, reached through `#[serde(flatten)]`. -/
inductive InlineKeyboardButtonPressed where
  | Url (u : String)
  | CallbackData (d : String)
  | SwitchInlineQuery (q : String)
  | SwitchInlineQueryCurrentChat (q : String)
  | Pay (p : Bool)
  | CallbackGame (g : TelegramTypes.CallbackGame)
  | LoginUrl (l : TelegramTypes.LoginUrl)
  | Unknown
deriving Repr, DecidableEq

/-- The wire names of the `InlineKeyboardButtonPressed` variants, as scanned
for by serde's flattened-enum machinery. -/
def InlineKeyboardButtonPressed.variantNames : List String :=
  ["url", "callback_data", "switch_inline_query",
   "switch_inline_query_current_chat", "pay", "callback_game", "login_url",
   "unknown"]

/-- Decode one recognized variant of `InlineKeyboardButtonPressed` from its
payload value. -/
def InlineKeyboardButtonPressed.decodeVariant (key : String) (v : Json) :
    Except String InlineKeyboardButtonPressed :=
  if key = "url" then (decodeString v).map .Url
  else if key = "callback_data" then (decodeString v).map .CallbackData
  else if key = "switch_inline_query" then (decodeString v).map .SwitchInlineQuery
  else if key = "switch_inline_query_current_chat" then
    (decodeString v).map .SwitchInlineQueryCurrentChat
  else if key = "pay" then (decodeBool v).map .Pay
  else if key = "callback_game" then (CallbackGame.deserialize v).map .CallbackGame
  else if key = "login_url" then (LoginUrl.deserialize v).map .LoginUrl
  else if key = "unknown" then
    match v with
    | .null => .ok .Unknown
    | _ => .error "invalid type: expected unit variant"
  else .error ("unknown variant `" ++ key ++ "`")

/-- serde's `FlatMapDeserializer::deserialize_enum`: the first field (in
document order) whose key is a variant name selects the variant. -/
def findVariantEntry (variants : List String) :
    List (String × Json) → Option (String × Json)
  | [] => none
  | (k, v) :: rest =>
    if variants.contains k then some (k, v) else findVariantEntry variants rest

/-- The flattened `pressed` enum of a button, decoded from the fields left
over after `text`; no matching field is a hard error ("no variant of enum
... found in flattened data"). -/
def InlineKeyboardButtonPressed.fromFlattened (leftover : List (String × Json)) :
    Except String InlineKeyboardButtonPressed :=
  match findVariantEntry InlineKeyboardButtonPressed.variantNames leftover with
  | some (k, v) => InlineKeyboardButtonPressed.decodeVariant k v
  | none =>
    .error "no variant of enum InlineKeyboardButtonPressed found in flattened data"

/-- `InlineKeyboardButton` (`src/bot/types.rs` 692–698): `text` plus the
`#[serde(flatten)] pressed` enum. -/
structure InlineKeyboardButton where
  text : String
  pressed : InlineKeyboardButtonPressed
deriving Repr, DecidableEq

def InlineKeyboardButton.deserialize (j : Json) : Except String InlineKeyboardButton :=
  match j with
  | .obj fields => do
    let text ← reqField fields "text" decodeString
    let pressed ← InlineKeyboardButtonPressed.fromFlattened
      (fields.filter (fun kv => kv.1 ≠ "text"))
    .ok ⟨text, pressed⟩
  | _ => .error "invalid type: expected struct InlineKeyboardButton"

/-- `InlineKeyboardMarkup` (`src/bot/types.rs` 684–689). -/
structure InlineKeyboardMarkup where
  inline_keyboard : List (List InlineKeyboardButton)
deriving Repr, DecidableEq

def InlineKeyboardMarkup.deserialize (j : Json) :
    Except String InlineKeyboardMarkup :=
  match j with
  | .obj fields => do
    let inline_keyboard ← vecDefaultField fields "inline_keyboard"
      (decodeList InlineKeyboardButton.deserialize)
    .ok ⟨inline_keyboard⟩
  | _ => .error "invalid type: expected struct InlineKeyboardMarkup"

/-! ## Inline mode objects (`src/bot/inline_mode.rs`) -/

/-- `InlineQueryId(pub String)`. -/
structure InlineQueryId where
  val : String
deriving Repr, DecidableEq

def InlineQueryId.deserialize (j : Json) : Except String InlineQueryId :=
  (decodeString j).map InlineQueryId.mk

/-- `ResultId(pub String)`. -/
structure ResultId where
  val : String
deriving Repr, DecidableEq

def ResultId.deserialize (j : Json) : Except String ResultId :=
  (decodeString j).map ResultId.mk

/-- `InlineQuery` (`src/bot/inline_mode.rs` 24–37); the Rust field `from` is
a Lean keyword and is embedded as `from_user`. -/
structure InlineQuery where
  id : InlineQueryId
  from_user : User
  location : Option Location
  query : String
  offset : String
deriving Repr, DecidableEq

def InlineQuery.deserialize (j : Json) : Except String InlineQuery :=
  match j with
  | .obj fields => do
    let id ← reqField fields "id" InlineQueryId.deserialize
    let from_user ← reqField fields "from" User.deserialize
    let location ← optField fields "location" Location.deserialize
    let query ← reqField fields "query" decodeString
    let offset ← reqField fields "offset" decodeString
    .ok ⟨id, from_user, location, query, offset⟩
  | _ => .error "invalid type: expected struct InlineQuery"

/-- `ChosenInlineResult` (`src/bot/inline_mode.rs` 210–225); the Rust field
`from` is a Lean keyword and is embedded as `from_user`. -/
structure ChosenInlineResult where
  result_id : ResultId
  from_user : User
  location : Option Location
  inline_message_id : Option String
  query : String
deriving Repr, DecidableEq

def ChosenInlineResult.deserialize (j : Json) : Except String ChosenInlineResult :=
  match j with
  | .obj fields => do
    let result_id ← reqField fields "result_id" ResultId.deserialize
    let from_user ← reqField fields "from" User.deserialize
    let location ← optField fields "location" Location.deserialize
    let inline_message_id ← optField fields "inline_message_id" decodeString
    let query ← reqField fields "query" decodeString
    .ok ⟨result_id, from_user, location, inline_message_id, query⟩
  | _ => .error "invalid type: expected struct ChosenInlineResult"

/-! ## Placeholder update payloads (`src/bot/types.rs` 161–170)

`ShippingQuery`, `PreCheckoutQuery`, `Poll`, `PollAnswer` and
`ChatMemberUpdated` are declared as empty braces structs ("TODO: implement
these placeholders"): any JSON object decodes, every field is ignored; the
empty JSON sequence also decodes (serde's positional struct form), while a
nonempty sequence is an invalid-length error. -/

structure ShippingQuery where
deriving Repr, DecidableEq

def ShippingQuery.deserialize (j : Json) : Except String ShippingQuery :=
  match j with
  | .obj _ => .ok ⟨⟩
  | .arr [] => .ok ⟨⟩
  | .arr (_ :: _) => .error "invalid length, expected struct ShippingQuery with 0 elements"
  | _ => .error "invalid type: expected struct ShippingQuery"

structure PreCheckoutQuery where
deriving Repr, DecidableEq

def PreCheckoutQuery.deserialize (j : Json) : Except String PreCheckoutQuery :=
  match j with
  | .obj _ => .ok ⟨⟩
  | .arr [] => .ok ⟨⟩
  | .arr (_ :: _) => .error "invalid length, expected struct PreCheckoutQuery with 0 elements"
  | _ => .error "invalid type: expected struct PreCheckoutQuery"

structure Poll where
deriving Repr, DecidableEq

def Poll.deserialize (j : Json) : Except String Poll :=
  match j with
  | .obj _ => .ok ⟨⟩
  | .arr [] => .ok ⟨⟩
  | .arr (_ :: _) => .error "invalid length, expected struct Poll with 0 elements"
  | _ => .error "invalid type: expected struct Poll"

structure PollAnswer where
deriving Repr, DecidableEq

def PollAnswer.deserialize (j : Json) : Except String PollAnswer :=
  match j with
  | .obj _ => .ok ⟨⟩
  | .arr [] => .ok ⟨⟩
  | .arr (_ :: _) => .error "invalid length, expected struct PollAnswer with 0 elements"
  | _ => .error "invalid type: expected struct PollAnswer"

structure ChatMemberUpdated where
deriving Repr, DecidableEq

def ChatMemberUpdated.deserialize (j : Json) : Except String ChatMemberUpdated :=
  match j with
  | .obj _ => .ok ⟨⟩
  | .arr [] => .ok ⟨⟩
  | .arr (_ :: _) => .error "invalid length, expected struct ChatMemberUpdated with 0 elements"
  | _ => .error "invalid type: expected struct ChatMemberUpdated"

/-! ## The `Message`/`Chat`/`ChatType` recursive graph

Rust ties `Message`, `Chat` and `ChatType` into one recursive knot
(`Message.chat : Chat`, `Chat.kind : ChatType`,
`ChatType::{Supergroup, Channel}.pinned_message : Option<Box<Message>>`,
`Message.{reply_to_message, pinned_message} : Option<Box<Message>>`).
Lean structures cannot be mutually recursive, so `Chat`, `ChatType` and
`CallbackQuery` are parametrized by the message type and `Message` is a
single nested inductive; `Chat`/`ChatType`/`CallbackQuery` are the
instantiations at `Message`, with the source's field sets kept verbatim. -/

/-- `ChatType` (`src/bot/types.rs` 213–261): `#[serde(tag = "type")]`,
`#[serde(rename_all = "snake_case")]`, with `#[serde(other)] Unknown`. -/
inductive ChatTypeOf (Msg : Type) where
  | Private (username : Option String) (first_name : String)
      (last_name : Option String)
  | Group (title : String) (username : Option String)
      (all_members_are_administrators : Bool)
  | Supergroup (title : String) (username : Option String)
      (all_members_are_administrators : Bool) (pinned_message : Option Msg)
      (sticker_set_name : Option String) (can_set_sticker_set : Option Bool)
      (invite_link : Option String) (description : Option String)
  | Channel (title : String) (username : Option String)
      (pinned_message : Option Msg) (invite_link : Option String)
      (description : Option String)
  | Unknown

/-- `Chat` (`src/bot/types.rs` 263–273): `id`, `photo`, and the
`#[serde(flatten)]` chat type. -/
structure ChatOf (Msg : Type) where
  id : ChatId
  photo : Option ChatPhoto
  kind : ChatTypeOf Msg

/-- `CallbackQuery` (`src/bot/types.rs` 755–773); the Rust field `from` is a
Lean keyword and is embedded as `from_user`. -/
structure CallbackQueryOf (Msg : Type) where
  id : String
  from_user : User
  message : Option Msg
  inline_message_id : Option String
  chat_instance : String
  data : Option String
  game_short_name : Option String

/-- `Message` (`src/bot/types.rs` 276–394), all 43 fields in source order;
the Rust field `from` is a Lean keyword and is embedded as `from_user`. -/
inductive Message where
  | mk
    (message_id : MessageId)
    (from_user : Option User)
    (sender_chat : Option (ChatOf Message))
    (date : Time)
    (chat : ChatOf Message)
    (forward_from : Option User)
    (forward_from_chat : Option (ChatOf Message))
    (forward_from_message_id : Option MessageId)
    (forward_signature : Option String)
    (forward_sender_name : Option String)
    (forward_date : Option Time)
    (reply_to_message : Option Message)
    (edit_date : Option Time)
    (media_group_id : Option String)
    (author_signature : Option String)
    (text : Option String)
    (sticker : Option Sticker)
    (audio : Option Audio)
    (document : Option Document)
    (photo : List PhotoSize)
    (entities : List MessageEntity)
    (voice : Option Voice)
    (video : Option Video)
    (video_note : Option VideoNote)
    (animation : Option Animation)
    (caption_entities : List MessageEntity)
    (caption : Option String)
    (contact : Option Contact)
    (location : Option Location)
    (venue : Option Venue)
    (new_chat_members : List User)
    (left_chat_member : Option User)
    (new_chat_title : Option String)
    (new_chat_photo : List PhotoSize)
    (delete_chat_photo : Bool)
    (group_chat_created : Bool)
    (supergroup_chat_created : Bool)
    (channel_chat_created : Bool)
    (migrate_to_chat_id : Option ChatId)
    (migrate_from_chat_id : Option ChatId)
    (pinned_message : Option Message)
    (connected_website : Option String)
    (reply_markup : Option InlineKeyboardMarkup)

abbrev Chat := ChatOf Message

abbrev ChatType := ChatTypeOf Message

abbrev CallbackQuery := CallbackQueryOf Message

/-! ### Fueled deserializers for the recursive knot

The three decoders recurse structurally on a fuel counter, a Lean
termination artifact only: each recursive call descends into a strictly
smaller JSON value (or, for `Chat → ChatType`, re-reads the same object
once), so the public wrappers below hand every call enough fuel and the
fuel branch is never taken on them. -/

mutual

/-- Derived `Deserialize` for `Message`: every field looked up by name,
`Option` fields defaulting to `None`, `#[serde(default)]` vectors to `[]`,
`#[serde(default = "falsum")]` booleans to `false`. -/
def decodeMessageF : Nat → Json → Except String Message
  | 0, _ => .error "recursion limit reached"
  | fuel + 1, .obj fields => do
    let message_id ← reqField fields "message_id" MessageId.deserialize
    let from_user ← optField fields "from" User.deserialize
    let sender_chat ← match findField fields "sender_chat" with
      | none => Except.ok none
      | some .null => Except.ok none
      | some v => (decodeChatF fuel v).map some
    let date ← reqField fields "date" Time.deserialize
    let chat ← match findField fields "chat" with
      | none => Except.error "missing field `chat`"
      | some v => decodeChatF fuel v
    let forward_from ← optField fields "forward_from" User.deserialize
    let forward_from_chat ← match findField fields "forward_from_chat" with
      | none => Except.ok none
      | some .null => Except.ok none
      | some v => (decodeChatF fuel v).map some
    let forward_from_message_id ←
      optField fields "forward_from_message_id" MessageId.deserialize
    let forward_signature ← optField fields "forward_signature" decodeString
    let forward_sender_name ← optField fields "forward_sender_name" decodeString
    let forward_date ← optField fields "forward_date" Time.deserialize
    let reply_to_message ← match findField fields "reply_to_message" with
      | none => Except.ok none
      | some .null => Except.ok none
      | some v => (decodeMessageF fuel v).map some
    let edit_date ← optField fields "edit_date" Time.deserialize
    let media_group_id ← optField fields "media_group_id" decodeString
    let author_signature ← optField fields "author_signature" decodeString
    let text ← optField fields "text" decodeString
    let sticker ← optField fields "sticker" Sticker.deserialize
    let audio ← optField fields "audio" Audio.deserialize
    let document ← optField fields "document" Document.deserialize
    let photo ← vecDefaultField fields "photo" PhotoSize.deserialize
    let entities ← vecDefaultField fields "entities" MessageEntity.deserialize
    let voice ← optField fields "voice" Voice.deserialize
    let video ← optField fields "video" Video.deserialize
    let video_note ← optField fields "video_note" VideoNote.deserialize
    let animation ← optField fields "animation" Animation.deserialize
    let caption_entities ←
      vecDefaultField fields "caption_entities" MessageEntity.deserialize
    let caption ← optField fields "caption" decodeString
    let contact ← optField fields "contact" Contact.deserialize
    let location ← optField fields "location" Location.deserialize
    let venue ← optField fields "venue" Venue.deserialize
    let new_chat_members ← vecDefaultField fields "new_chat_members" User.deserialize
    let left_chat_member ← optField fields "left_chat_member" User.deserialize
    let new_chat_title ← optField fields "new_chat_title" decodeString
    let new_chat_photo ← vecDefaultField fields "new_chat_photo" PhotoSize.deserialize
    let delete_chat_photo ← boolFalsumField fields "delete_chat_photo"
    let group_chat_created ← boolFalsumField fields "group_chat_created"
    let supergroup_chat_created ← boolFalsumField fields "supergroup_chat_created"
    let channel_chat_created ← boolFalsumField fields "channel_chat_created"
    let migrate_to_chat_id ← optField fields "migrate_to_chat_id" ChatId.deserialize
    let migrate_from_chat_id ← optField fields "migrate_from_chat_id" ChatId.deserialize
    let pinned_message ← match findField fields "pinned_message" with
      | none => Except.ok none
      | some .null => Except.ok none
      | some v => (decodeMessageF fuel v).map some
    let connected_website ← optField fields "connected_website" decodeString
    let reply_markup ← optField fields "reply_markup" InlineKeyboardMarkup.deserialize
    .ok (Message.mk message_id from_user sender_chat date chat forward_from
      forward_from_chat forward_from_message_id forward_signature
      forward_sender_name forward_date reply_to_message edit_date
      media_group_id author_signature text sticker audio document photo
      entities voice video video_note animation caption_entities caption
      contact location venue new_chat_members left_chat_member new_chat_title
      new_chat_photo delete_chat_photo group_chat_created
      supergroup_chat_created channel_chat_created migrate_to_chat_id
      migrate_from_chat_id pinned_message connected_website reply_markup)
  | _ + 1, _ => .error "invalid type: expected struct Message"

/-- Derived `Deserialize` for `Chat`: `id` and `photo` by name, then the
`#[serde(flatten)] kind : ChatType` from the remaining fields. No member
name of `ChatType` collides with `id` or `photo`, so feeding the flattened
enum the full object is equivalent to feeding it the leftovers. -/
def decodeChatF : Nat → Json → Except String (ChatOf Message)
  | 0, _ => .error "recursion limit reached"
  | fuel + 1, .obj fields => do
    let id ← reqField fields "id" ChatId.deserialize
    let photo ← optField fields "photo" ChatPhoto.deserialize
    let kind ← decodeChatTypeF fuel (.obj fields)
    .ok ⟨id, photo, kind⟩
  | _ + 1, _ => .error "invalid type: expected struct Chat"

/-- Derived `Deserialize` for the internally tagged `ChatType`: read the
`"type"` discriminator, dispatch to the variant's fields, and send every
unrecognized tag to `Unknown` (`#[serde(other)]`). -/
def decodeChatTypeF : Nat → Json → Except String (ChatTypeOf Message)
  | 0, _ => .error "recursion limit reached"
  | fuel + 1, .obj fields =>
    (match findField fields "type" with
     | none => .error "missing field `type`"
     | some (.str tag) =>
       if tag = "private" then do
         let username ← optField fields "username" decodeString
         let first_name ← reqField fields "first_name" decodeString
         let last_name ← optField fields "last_name" decodeString
         .ok (.Private username first_name last_name)
       else if tag = "group" then do
         let title ← reqField fields "title" decodeString
         let username ← optField fields "username" decodeString
         let all_members_are_administrators ←
           boolFalsumField fields "all_members_are_administrators"
         .ok (.Group title username all_members_are_administrators)
       else if tag = "supergroup" then do
         let title ← reqField fields "title" decodeString
         let username ← optField fields "username" decodeString
         let all_members_are_administrators ←
           boolFalsumField fields "all_members_are_administrators"
         let pinned_message ← match findField fields "pinned_message" with
           | none => Except.ok none
           | some .null => Except.ok none
           | some v => (decodeMessageF fuel v).map some
         let sticker_set_name ← optField fields "sticker_set_name" decodeString
         let can_set_sticker_set ← optField fields "can_set_sticker_set" decodeBool
         let invite_link ← optField fields "invite_link" decodeString
         let description ← optField fields "description" decodeString
         .ok (.Supergroup title username all_members_are_administrators
           pinned_message sticker_set_name can_set_sticker_set invite_link
           description)
       else if tag = "channel" then do
         let title ← reqField fields "title" decodeString
         let username ← optField fields "username" decodeString
         let pinned_message ← match findField fields "pinned_message" with
           | none => Except.ok none
           | some .null => Except.ok none
           | some v => (decodeMessageF fuel v).map some
         let invite_link ← optField fields "invite_link" decodeString
         let description ← optField fields "description" decodeString
         .ok (.Channel title username pinned_message invite_link description)
       else .ok .Unknown
     | some _ => .error "invalid type: expected string tag `type`")
  | _ + 1, _ => .error "invalid type: expected internally tagged enum ChatType"

end

/-- Derived `Deserialize` for `CallbackQuery` (not itself recursive, but its
`message` field holds a `Message`). -/
def decodeCallbackQueryF (fuel : Nat) (j : Json) :
    Except String (CallbackQueryOf Message) :=
  match j with
  | .obj fields => do
    let id ← reqField fields "id" decodeString
    let from_user ← reqField fields "from" User.deserialize
    let message ← match findField fields "message" with
      | none => Except.ok none
      | some .null => Except.ok none
      | some v => (decodeMessageF fuel v).map some
    let inline_message_id ← optField fields "inline_message_id" decodeString
    let chat_instance ← reqField fields "chat_instance" decodeString
    let data ← optField fields "data" decodeString
    let game_short_name ← optField fields "game_short_name" decodeString
    .ok ⟨id, from_user, message, inline_message_id, chat_instance, data,
      game_short_name⟩
  | _ => .error "invalid type: expected struct CallbackQuery"

/-- Fuel that always suffices for a value's decode: the recursion consumes
at most two fuel units per strict descent into the value. -/
def jsonFuel (j : Json) : Nat := 2 * Json.size j + 2

def Message.deserialize (j : Json) : Except String Message :=
  decodeMessageF (jsonFuel j) j

def Chat.deserialize (j : Json) : Except String Chat :=
  decodeChatF (jsonFuel j) j

def ChatType.deserialize (j : Json) : Except String ChatType :=
  decodeChatTypeF (jsonFuel j) j

def CallbackQuery.deserialize (j : Json) : Except String CallbackQuery :=
  decodeCallbackQueryF (jsonFuel j) j

/-! ## The update envelope (`src/bot/types.rs` 105–159) -/

/-- `UpdateContent` (`src/bot/types.rs` 117–154):
`#[serde(rename_all = "snake_case")]` externally tagged union of update
kinds, reached through `#[serde(flatten)]` inside `Update`. -/
inductive UpdateContent where
  | Message (m : TelegramTypes.Message)
  | EditedMessage (m : TelegramTypes.Message)
  | ChannelPost (m : TelegramTypes.Message)
  | EditedChannelPost (m : TelegramTypes.Message)
  | InlineQuery (q : TelegramTypes.InlineQuery)
  | ChosenInlineResult (r : TelegramTypes.ChosenInlineResult)
  | CallbackQuery (q : TelegramTypes.CallbackQuery)
  | ShippingQuery (q : TelegramTypes.ShippingQuery)
  | PreCheckoutQuery (q : TelegramTypes.PreCheckoutQuery)
  | Poll (p : TelegramTypes.Poll)
  | PollAnswer (a : TelegramTypes.PollAnswer)
  | MyChatMember (c : ChatMemberUpdated)
  | ChatMember (c : ChatMemberUpdated)
  | Unknown

/-- `impl Default for UpdateContent` (`src/bot/types.rs` 155–159). -/
def UpdateContent.default : UpdateContent := .Unknown

/-- The wire names of the `UpdateContent` variants, as scanned for by serde's
flattened-enum machinery. -/
def UpdateContent.variantNames : List String :=
  ["message", "edited_message", "channel_post", "edited_channel_post",
   "inline_query", "chosen_inline_result", "callback_query", "shipping_query",
   "pre_checkout_query", "poll", "poll_answer", "my_chat_member",
   "chat_member", "unknown"]

/-- Decode one recognized variant of `UpdateContent` from its payload value.
A recognized key whose payload fails to decode propagates the error. -/
def UpdateContent.decodeVariant (key : String) (v : Json) :
    Except String UpdateContent :=
  if key = "message" then (Message.deserialize v).map .Message
  else if key = "edited_message" then (Message.deserialize v).map .EditedMessage
  else if key = "channel_post" then (Message.deserialize v).map .ChannelPost
  else if key = "edited_channel_post" then
    (Message.deserialize v).map .EditedChannelPost
  else if key = "inline_query" then (InlineQuery.deserialize v).map .InlineQuery
  else if key = "chosen_inline_result" then
    (ChosenInlineResult.deserialize v).map .ChosenInlineResult
  else if key = "callback_query" then
    (CallbackQuery.deserialize v).map .CallbackQuery
  else if key = "shipping_query" then
    (ShippingQuery.deserialize v).map .ShippingQuery
  else if key = "pre_checkout_query" then
    (PreCheckoutQuery.deserialize v).map .PreCheckoutQuery
  else if key = "poll" then (Poll.deserialize v).map .Poll
  else if key = "poll_answer" then (PollAnswer.deserialize v).map .PollAnswer
  else if key = "my_chat_member" then
    (ChatMemberUpdated.deserialize v).map .MyChatMember
  else if key = "chat_member" then
    (ChatMemberUpdated.deserialize v).map .ChatMember
  else if key = "unknown" then
    match v with
    | .null => .ok .Unknown
    | _ => .error "invalid type: expected unit variant"
  else .error ("unknown variant `" ++ key ++ "`")

/-- serde's `FlatMapDeserializer::deserialize_enum` over the fields left
over after `update_id`: the first field (in document order) whose key is a
variant name selects the variant; no matching field is a hard error. -/
def UpdateContent.fromFlattened (leftover : List (String × Json)) :
    Except String UpdateContent :=
  match findVariantEntry UpdateContent.variantNames leftover with
  | some (k, v) => UpdateContent.decodeVariant k v
  | none => .error "no variant of enum UpdateContent found in flattened data"

/-- `Update` (`src/bot/types.rs` 105–115): `update_id` plus the
`#[serde(flatten)] content : Option<UpdateContent>` workaround for
serde-rs/serde#1626. -/
structure Update where
  update_id : UpdateId
  content : Option UpdateContent

/-- Derived `Deserialize` for `Update`: `update_id` by name; the remaining
fields feed the flattened `Option<UpdateContent>` — an empty leftover is
`None` (serde's `FlatMapDeserializer::deserialize_option` visits none when
every collected field was consumed), otherwise `Some` of the flattened enum
decode. -/
def Update.deserialize (j : Json) : Except String Update :=
  match j with
  | .obj fields => do
    let update_id ← reqField fields "update_id" UpdateId.deserialize
    let leftover := fields.filter (fun kv => kv.1 ≠ "update_id")
    let content ← if leftover.isEmpty then Except.ok none
      else (UpdateContent.fromFlattened leftover).map some
    .ok ⟨update_id, content⟩
  | _ => .error "invalid type: expected struct Update"

/-! ## Test fixtures -/

/-- A minimal well-formed `Message` JSON object: the three required fields
(`message_id`, `date`, `chat`), the chat being a channel with a title. -/
def testMsgJson : Json := .obj [("message_id", .num 1), ("date", .num 0),
  ("chat", .obj [("id", .num 7), ("type", .str "channel"), ("title", .str "t")])]

/-- The decode of `testMsgJson`: every optional field `none`, every
defaulted vector `[]`, every defaulted boolean `falsum`. -/
def testMsg : Message := .mk ⟨1⟩ none none ⟨0⟩
  ⟨⟨7⟩, none, .Channel "t" none none none none⟩
  none none none none none none none none none none none none none none
  [] [] none none none none [] none none none none [] none none []
  falsum falsum falsum falsum none none none none none

/-- The envelope `{"ok": false, "error_code": 401, "description":
"Unauthorized"}` (the repository's `tests/json/error.json` scenario). -/
def envJson401 : Json := .obj [("ok", .bool false), ("error_code", .num 401),
  ("description", .str "Unauthorized")]

/-- The decoded form of `envJson401` at payload type `Vec<Update>`
(`UpdateList`). -/
def env401 : TelegramResult (List Update) :=
  { ok := false, description := some "Unauthorized", error_code := some 401,
    result := none, parameters := none }

end TelegramTypes

namespace TelegramTypes

/-! # Theorems -/

/-- Claim C2: for every payload type `T` and every `TelegramResult T` with
`ok = true`, `into_result` returns `Ok` of the payload when the `result`
field is present, and otherwise `Err` of an `ApiError` with `error_code = 0`
and a description noting the missing `result` field. -/
theorem into_result_ok_true {T : Type} (r : TelegramResult T) (h : r.ok = true) :
    (∀ v, r.result = some v → r.into_result = .ok v) ∧
    (r.result = none →
      r.into_result = .error (ApiError.mk 0
        "In the response from telegram `ok: true`, but not found `result` field."
        none)) := by
  constructor
  · intro v hv
    simp [TelegramResult.into_result, h, hv]
  · intro hv
    simp [TelegramResult.into_result, h, hv]

/-- Witness for C2: the success envelope with payload `42` projects to
`Ok 42`, and the success envelope with no payload projects to the code-0
sentinel error. -/
theorem into_result_ok_true_witness :
    (TelegramResult.mk true none none (some 42) none : TelegramResult Nat).into_result = .ok 42 ∧
    (TelegramResult.mk true none none none none : TelegramResult Nat).into_result =
      .error (ApiError.mk 0
        "In the response from telegram `ok: true`, but not found `result` field."
        none) :=
  ⟨(into_result_ok_true _ rfl).1 42 rfl, (into_result_ok_true _ rfl).2 rfl⟩

/-- Claim C3: for every `TelegramResult T` with `ok = false`, `into_result`
returns `Err` of an `ApiError` built from the envelope — with `error_code`
present the error's code equals it and its description is the envelope's
(empty when absent); with `error_code` absent the code defaults to `0` with
a description noting the missing code. Decoding
`{"ok": false, "error_code": 401, "description": "Unauthorized"}` and
projecting yields code `401` and description `"Unauthorized"`. -/
theorem into_result_ok_false :
    (∀ (T : Type) (r : TelegramResult T), r.ok = false →
      ((∀ c, r.error_code = some c →
          r.into_result = .error (ApiError.mk c (r.description.getD "") r.parameters)) ∧
       (r.error_code = none →
          r.into_result = .error (ApiError.mk 0
            "In the response from telegram `ok: false`, but not found `err_code` field."
            r.parameters)))) ∧
    TelegramResult.deserialize (decodeList Update.deserialize) envJson401 =
      .ok env401 ∧
    env401.into_result = .error (ApiError.mk 401 "Unauthorized" none) := by
  refine ⟨?_, rfl, rfl⟩
  intro T r h
  constructor
  · intro c hc
    simp [TelegramResult.into_result, h, hc]
  · intro hc
    simp [TelegramResult.into_result, h, hc]

/-- Witness for C3: the failure envelope `{ok: false, error_code: 401,
description: "Unauthorized"}` projects to the 401/"Unauthorized" error, and
the failure envelope with no `error_code` projects to the code-0
missing-code error. -/
theorem into_result_ok_false_witness :
    (TelegramResult.mk false (some "Unauthorized") (some 401) none none
        : TelegramResult Nat).into_result =
      .error (ApiError.mk 401 "Unauthorized" none) ∧
    (TelegramResult.mk false none none none none : TelegramResult Nat).into_result =
      .error (ApiError.mk 0
        "In the response from telegram `ok: false`, but not found `err_code` field."
        none) :=
  ⟨(into_result_ok_false.1 Nat _ rfl).1 401 rfl,
   (into_result_ok_false.1 Nat _ rfl).2 rfl⟩

/-- Claim C10: for every `TelegramResult T` with `ok = false`, `into_result`
returns `Err` — the success flag alone decides the outcome, and `r.result`
does not occur in the outcome at all (a populated payload alongside
`ok = false` is discarded, never returned as `Ok`). -/
theorem into_result_err_on_not_ok {T : Type} (r : TelegramResult T)
    (h : r.ok = false) :
    r.into_result = .error (ApiError.mk (r.error_code.getD 0)
      (if r.error_code.isNone then
        "In the response from telegram `ok: false`, but not found `err_code` field."
      else r.description.getD "")
      r.parameters) := by
  simp [TelegramResult.into_result, h]

/-- Witness for C10: an `ok = false` envelope whose `result` is populated
with `7` still projects to `Err`. -/
theorem into_result_err_on_not_ok_witness :
    (TelegramResult.mk false (some "boom") (some 400) (some 7) none
        : TelegramResult Nat).into_result =
      .error (ApiError.mk ((some (400 : Int)).getD 0)
        (if (some (400 : Int)).isNone then
          "In the response from telegram `ok: false`, but not found `err_code` field."
        else (some "boom").getD "")
        none) :=
  into_result_err_on_not_ok _ rfl

/-- Claim C5: `ChatTarget` encodes as a single bare JSON scalar and the
untagged decode never flips the branch: for every `i64` chat id the
round-trip returns the `Id` branch, for every username string the
round-trip returns the `Username` branch; a JSON number (in `i64` range)
decodes to `Id` and a JSON string to `Username`. -/
theorem chat_target_scalar_roundtrip :
    (∀ c : Int, i64Range c →
      ChatTarget.deserialize (ChatTarget.serialize (.Id ⟨c⟩)) = .ok (.Id ⟨c⟩)) ∧
    (∀ u : String,
      ChatTarget.deserialize (ChatTarget.serialize (.Username u)) =
        .ok (.Username u)) ∧
    (∀ n : Int, i64Range n → ChatTarget.deserialize (.num n) = .ok (.Id ⟨n⟩)) ∧
    (∀ s : String, ChatTarget.deserialize (.str s) = .ok (.Username s)) := by
  have hnum : ∀ n : Int, i64Range n →
      ChatTarget.deserialize (.num n) = .ok (.Id ⟨n⟩) := by
    intro n hn
    simp [ChatTarget.deserialize, ChatId.deserialize, decodeI64, hn, Except.map]
  exact ⟨fun c hc => hnum c hc, fun u => rfl, hnum, fun s => rfl⟩

/-- Witness for C5: the id `42` and the username `"@cocona"` each
round-trip to their own branch. -/
theorem chat_target_scalar_roundtrip_witness :
    ChatTarget.deserialize (ChatTarget.serialize (.Id ⟨42⟩)) = .ok (.Id ⟨42⟩) ∧
    ChatTarget.deserialize (.num 42) = .ok (.Id ⟨42⟩) :=
  ⟨chat_target_scalar_roundtrip.1 42 (by decide),
   chat_target_scalar_roundtrip.2.2.1 42 (by decide)⟩

/-- Claim C7: a `FileToSend::FileId` serializes to the bare identifier
string (`FileToSend::FileId(FileId("42"))` to `"42"`), and an
`InputFile::new(n)` wrapped as `FileToSend::InputFile` serializes to the
string `"attach://" ++ n`. -/
theorem file_reference_encoding :
    (∀ s : String, FileToSend.serialize (.FileId ⟨s⟩) = .str s) ∧
    FileToSend.serialize (.FileId ⟨"42"⟩) = .str "42" ∧
    (∀ n : String,
      FileToSend.serialize (.InputFile (InputFile.new n)) =
        .str ("attach://" ++ n)) :=
  ⟨fun _ => rfl, rfl, fun _ => rfl⟩

/-- On values in the `i64` range, the wrap-around is the identity. -/
theorem wrapI64_of_i64Range (n : Int) (h : i64Range n) : wrapI64 n = n := by
  have h' : -(2 ^ 63) ≤ n ∧ n < 2 ^ 63 := h
  obtain ⟨h1, h2⟩ := h'
  have e63 : ((2 : Int) ^ 63) = 9223372036854775808 := by norm_num
  have e64 : ((2 : Int) ^ 64) = 18446744073709551616 := by norm_num
  unfold wrapI64
  rw [e63] at h1 h2 ⊢
  rw [e64]
  rw [Int.emod_eq_of_lt (by omega) (by omega)]
  omega

/-- Claim C8 counterexample: at the `i64` boundary the source's raw `i64`
addition does not produce the plain offset — with the in-range inputs
`n = 2^63 - 1` and `k = 1` it wraps to `UpdateId(-2^63)` (release builds;
debug builds panic), never `UpdateId(2^63)` as the claim asserts. -/
theorem id_arithmetic_overflow_counterexample :
    UpdateId.mk (2 ^ 63 - 1) + (1 : Int) = UpdateId.mk (-(2 ^ 63)) ∧
    UpdateId.mk (2 ^ 63 - 1) + (1 : Int) ≠ UpdateId.mk (2 ^ 63) :=
  ⟨by decide, by decide⟩

/-- Claim C8 (amended): identifier arithmetic offsets the raw value under
`i64` two's-complement wrap-around for each of the four `impl_id!`
newtypes (the release-mode semantics of the source's raw `i64` `+`/`-`;
debug builds panic on overflow); whenever the offset result stays in the
`i64` range this is the plain offset `Id(n + k)` (resp. `Id(n - k)`), and
in particular `UpdateId(5) + 1 = UpdateId(6)`. -/
theorem id_arithmetic_wrapping :
    (∀ n k : Int,
      UserId.mk n + k = UserId.mk (wrapI64 (n + k)) ∧
      UserId.mk n - k = UserId.mk (wrapI64 (n - k)) ∧
      (i64Range (n + k) → UserId.mk n + k = UserId.mk (n + k)) ∧
      (i64Range (n - k) → UserId.mk n - k = UserId.mk (n - k))) ∧
    (∀ n k : Int,
      ChatId.mk n + k = ChatId.mk (wrapI64 (n + k)) ∧
      ChatId.mk n - k = ChatId.mk (wrapI64 (n - k)) ∧
      (i64Range (n + k) → ChatId.mk n + k = ChatId.mk (n + k)) ∧
      (i64Range (n - k) → ChatId.mk n - k = ChatId.mk (n - k))) ∧
    (∀ n k : Int,
      MessageId.mk n + k = MessageId.mk (wrapI64 (n + k)) ∧
      MessageId.mk n - k = MessageId.mk (wrapI64 (n - k)) ∧
      (i64Range (n + k) → MessageId.mk n + k = MessageId.mk (n + k)) ∧
      (i64Range (n - k) → MessageId.mk n - k = MessageId.mk (n - k))) ∧
    (∀ n k : Int,
      UpdateId.mk n + k = UpdateId.mk (wrapI64 (n + k)) ∧
      UpdateId.mk n - k = UpdateId.mk (wrapI64 (n - k)) ∧
      (i64Range (n + k) → UpdateId.mk n + k = UpdateId.mk (n + k)) ∧
      (i64Range (n - k) → UpdateId.mk n - k = UpdateId.mk (n - k))) ∧
    UpdateId.mk 5 + (1 : Int) = UpdateId.mk 6 :=
  ⟨fun n k => ⟨rfl, rfl,
     fun h => congrArg UserId.mk (wrapI64_of_i64Range (n + k) h),
     fun h => congrArg UserId.mk (wrapI64_of_i64Range (n - k) h)⟩,
   fun n k => ⟨rfl, rfl,
     fun h => congrArg ChatId.mk (wrapI64_of_i64Range (n + k) h),
     fun h => congrArg ChatId.mk (wrapI64_of_i64Range (n - k) h)⟩,
   fun n k => ⟨rfl, rfl,
     fun h => congrArg MessageId.mk (wrapI64_of_i64Range (n + k) h),
     fun h => congrArg MessageId.mk (wrapI64_of_i64Range (n - k) h)⟩,
   fun n k => ⟨rfl, rfl,
     fun h => congrArg UpdateId.mk (wrapI64_of_i64Range (n + k) h),
     fun h => congrArg UpdateId.mk (wrapI64_of_i64Range (n - k) h)⟩,
   by decide⟩

/-- Witness for C8 (amended): in-range offsets are plain offsets —
`UpdateId(5) + 1 = UpdateId(5 + 1)` and `UserId(10) - 3 = UserId(10 - 3)`. -/
theorem id_arithmetic_wrapping_witness :
    UpdateId.mk 5 + (1 : Int) = UpdateId.mk (5 + 1) ∧
    UserId.mk 10 - (3 : Int) = UserId.mk (10 - 3) :=
  ⟨(id_arithmetic_wrapping.2.2.2.1 5 1).2.2.1 (by decide),
   (id_arithmetic_wrapping.1 10 3).2.2.2 (by decide)⟩

/-- Claim C9: the untagged `FileToSend` decode tries `FileId` first and it
accepts every string, so a bare JSON string always yields the `FileId`
branch; the serializations of `Url` and `InputFile` decode back to
`FileId`, and no JSON value ever decodes to the `Url` or `InputFile`
branch. -/
theorem file_to_send_decode_priority :
    (∀ s : String, FileToSend.deserialize (.str s) = .ok (.FileId ⟨s⟩)) ∧
    (∀ s : String,
      FileToSend.deserialize (FileToSend.serialize (.Url s)) = .ok (.FileId ⟨s⟩)) ∧
    (∀ s : String,
      FileToSend.deserialize (FileToSend.serialize (.InputFile ⟨s⟩)) =
        .ok (.FileId ⟨s⟩)) ∧
    (∀ (j : Json) (u : String), FileToSend.deserialize j ≠ .ok (.Url u)) ∧
    (∀ (j : Json) (f : InputFile), FileToSend.deserialize j ≠ .ok (.InputFile f)) := by
  refine ⟨fun s => rfl, fun s => rfl, fun s => rfl, ?_, ?_⟩
  · intro j u h
    cases j <;>
      simp [FileToSend.deserialize, FileId.deserialize, InputFile.deserialize,
        decodeString, Except.map] at h
  · intro j f h
    cases j <;>
      simp [FileToSend.deserialize, FileId.deserialize, InputFile.deserialize,
        decodeString, Except.map] at h

/-- Witness for C9: the string `"42"` decodes to the `FileId` branch, and
the serialization of `Url "u"` decodes back as `FileId`, not `Url`. -/
theorem file_to_send_decode_priority_witness :
    FileToSend.deserialize (.str "42") = .ok (.FileId ⟨"42"⟩) ∧
    FileToSend.deserialize (FileToSend.serialize (.Url "u")) = .ok (.FileId ⟨"u"⟩) ∧
    FileToSend.deserialize (.str "u") ≠ .ok (.Url "u") :=
  ⟨file_to_send_decode_priority.1 "42",
   file_to_send_decode_priority.2.1 "u",
   file_to_send_decode_priority.2.2.2.1 (.str "u") "u"⟩

/-- Claim C4: decoding a tagged-union JSON value with an unrecognized
discriminator succeeds with the `Unknown` variant:
`{"type": "Papika", "Cocona": "Mimi"}` decodes as `ChatType::Unknown`, and
every string naming no known variant decodes as
`MessageEntityKind::Unknown`. -/
theorem unknown_fallback :
    ChatType.deserialize
      (.obj [("type", .str "Papika"), ("Cocona", .str "Mimi")]) = .ok .Unknown ∧
    (∀ s : String, s ∉ MessageEntityKind.knownNames →
      MessageEntityKind.deserialize (.str s) = .ok .Unknown) := by
  refine ⟨rfl, ?_⟩
  intro s hs
  simp only [MessageEntityKind.knownNames, List.mem_cons, List.not_mem_nil,
    or_false, not_or] at hs
  obtain ⟨h1, h2, h3, h4, h5, h6, h7, h8, h9, h10, h11, h12, h13⟩ := hs
  simp [MessageEntityKind.deserialize, h1, h2, h3, h4, h5, h6, h7, h8, h9,
    h10, h11, h12, h13]

/-- Witness for C4: the unrecognized entity kind `"Flip Flappers"` (the
repository's own test vector) decodes to `Unknown`. -/
theorem unknown_fallback_witness :
    MessageEntityKind.deserialize (.str "Flip Flappers") = .ok .Unknown :=
  unknown_fallback.2 "Flip Flappers" (by decide)

/-- Claim C1 counterexample: the update object `{"update_id": 1}` — one with
none of the known content field names — decodes successfully, but its
content is `none` (the absent flattened `Option`), not
`some UpdateContent.Unknown` as the claim states. -/
theorem update_no_content_counterexample :
    Update.deserialize (.obj [("update_id", .num 1)]) =
      .ok { update_id := ⟨1⟩, content := none } ∧
    Update.deserialize (.obj [("update_id", .num 1)]) ≠
      .ok { update_id := ⟨1⟩, content := some .Unknown } := by
  refine ⟨rfl, fun h => ?_⟩
  have h2 : (Except.ok { update_id := (⟨1⟩ : UpdateId), content := none } :
      Except String Update) = .ok { update_id := ⟨1⟩, content := some .Unknown } := by
    rw [← h]
    rfl
  simp at h2

/-- Claim C1 (amended): decoding an `Update` dispatches on the content field
name — `{"update_id": i, "message": p}` with a well-formed message payload
yields `UpdateContent::Message` of that payload, `{"update_id": i,
"my_chat_member": p}` yields the `MyChatMember` variant, and
`{"update_id": i}` with no content field at all decodes successfully with
content `none` (the value the `Default` instance collapses to `Unknown`).
In every case the `update_id` field is decoded. -/
theorem update_content_dispatch (i : Int) (hi : i64Range i) :
    (∀ p m, Message.deserialize p = .ok m →
      Update.deserialize (.obj [("update_id", .num i), ("message", p)]) =
        .ok { update_id := ⟨i⟩, content := some (.Message m) }) ∧
    (∀ p c, ChatMemberUpdated.deserialize p = .ok c →
      Update.deserialize (.obj [("update_id", .num i), ("my_chat_member", p)]) =
        .ok { update_id := ⟨i⟩, content := some (.MyChatMember c) }) ∧
    Update.deserialize (.obj [("update_id", .num i)]) =
      .ok { update_id := ⟨i⟩, content := none } := by
  refine ⟨?_, ?_, ?_⟩
  · intro p m h
    simp [Update.deserialize, reqField, findField, UpdateId.deserialize,
      decodeI64, hi, UpdateContent.fromFlattened, findVariantEntry,
      UpdateContent.variantNames, UpdateContent.decodeVariant, h, Except.map,
      List.filter]
    rfl
  · intro p c h
    simp [Update.deserialize, reqField, findField, UpdateId.deserialize,
      decodeI64, hi, UpdateContent.fromFlattened, findVariantEntry,
      UpdateContent.variantNames, UpdateContent.decodeVariant, h, Except.map,
      List.filter]
    rfl
  · simp [Update.deserialize, reqField, findField, UpdateId.deserialize,
      decodeI64, hi, List.filter]
    rfl

/-- Witness for C1 (amended): the three dispatch outcomes at `update_id = 1`,
with the minimal well-formed message payload `testMsgJson`. -/
theorem update_content_dispatch_witness :
    Update.deserialize (.obj [("update_id", .num 1), ("message", testMsgJson)]) =
      .ok { update_id := ⟨1⟩, content := some (.Message testMsg) } ∧
    Update.deserialize (.obj [("update_id", .num 1), ("my_chat_member", .obj [])]) =
      .ok { update_id := ⟨1⟩, content := some (.MyChatMember ⟨⟩) } ∧
    Update.deserialize (.obj [("update_id", .num 1)]) =
      .ok { update_id := ⟨1⟩, content := none } :=
  ⟨(update_content_dispatch 1 (by decide)).1 testMsgJson testMsg rfl,
   (update_content_dispatch 1 (by decide)).2.1 (.obj []) ⟨⟩ rfl,
   (update_content_dispatch 1 (by decide)).2.2⟩

/-- Claim C6 counterexample: the update object `{"update_id": 1,
"my_chat_member": {}, "message": 5}` contains the recognized field
`message` with a payload that does not decode as a `Message` (second
conjunct), yet the whole `Update` decode succeeds, because serde's
flattened-enum scan takes the first recognized field in document order
(`my_chat_member`). -/
theorem update_first_match_counterexample :
    Update.deserialize (.obj [("update_id", .num 1), ("my_chat_member", .obj []),
      ("message", .num 5)]) =
      .ok { update_id := ⟨1⟩, content := some (.MyChatMember ⟨⟩) } ∧
    Message.deserialize (.num 5) = .error "invalid type: expected struct Message" :=
  ⟨rfl, rfl⟩

/-- Claim C6 (amended): when the *first* recognized content field of the
update object (here: its only one) has a payload that does not decode
against that variant's expected shape, the whole `Update` decode fails with
that error; it does not fall back to `Unknown` or to an absent content.
The payload ranges over sequence-free JSON values (the map/scalar wire
form): serde's derived structs additionally accept a positional JSON
sequence form, under which some sequence payloads decode successfully, and
the embedding models that form only for the empty placeholder structs. -/
theorem update_malformed_content_fails (i : Int) (hi : i64Range i) (k : String)
    (v : Json) (e : String) (hk : k ∈ UpdateContent.variantNames)
    (_hsf : v.seqFree = true)
    (he : UpdateContent.decodeVariant k v = .error e) :
    Update.deserialize (.obj [("update_id", .num i), (k, v)]) = .error e := by
  have hne : ¬ k = "update_id" := by
    intro hk2
    subst hk2
    revert hk
    decide
  simp [Update.deserialize, reqField, findField, UpdateId.deserialize,
    decodeI64, hi, UpdateContent.fromFlattened, findVariantEntry, hk, hne, he,
    Except.map, List.filter]
  rfl

/-- Witness for C6 (amended): `{"update_id": 1, "message": 5}` fails to
decode, with the message payload's own type error. -/
theorem update_malformed_content_fails_witness :
    Update.deserialize (.obj [("update_id", .num 1), ("message", .num 5)]) =
      .error "invalid type: expected struct Message" :=
  update_malformed_content_fails 1 (by decide) "message" (.num 5)
    "invalid type: expected struct Message" (by decide) rfl rfl

end TelegramTypes
